import Mathlib

/-!
Verification of the siftwise classification-and-decision pipeline.

This file gives a shallow embedding, in Lean 4, of the parts of the
siftwise source that the specification's claims talk about:

* `siftwise/strategy/residuals.py` (confidence boosting and promotion),
* `siftwise/strategy/planner.py`   (7-step routing, collision resolution,
  residual replanning),
* `siftwise/analyze/analyzer.py`   (signal merging, residual determination,
  refinement-iteration boost),
* `siftwise/analyze/detectors.py`  (extension and keyword detectors),
* `siftwise/commands/refine_residuals.py` (the refinement pass pipeline).

Modelling conventions:

* Python `float` confidences are modelled as exact rationals (`ℚ`); the
  arithmetic performed by the code (`+`, `*`, `min`, `max`, threshold
  comparisons) is exact at the magnitudes involved.
* `pathlib.Path` values are modelled as POSIX path strings together with
  executable re-implementations of the `parts` / `name` / `stem` /
  `suffix` / `parent` accessors used by the code (`pySegs`, `pyName`, ...).
* Python `re` searches used by the code are re-implemented as executable
  character-list scanners with the same semantics on ASCII input
  (in particular `\b` word boundaries, where `_`, letters and digits are
  word characters).
* Mapping CSV rows (Python dicts) are modelled by the structure `Row`
  whose fields are the union of keys the code reads or writes; a missing
  dict key is represented by `""`, matching the code's `row.get(k, '')`
  accesses.
-/

namespace Siftwise

/-! ### Python string primitives (ASCII model) -/

/-- Python `str.lower()` for ASCII text. -/
def pyLower (s : String) : String := String.mk (s.data.map Char.toLower)

/-- Leading-whitespace removal on a character list. -/
def stripLeading : List Char → List Char
  | [] => []
  | c :: rest => if c.isWhitespace then stripLeading rest else c :: rest

/-- Python `str.strip()` (whitespace on both ends). -/
def pyStrip (s : String) : String :=
  String.mk ((stripLeading ((stripLeading s.data).reverse)).reverse)

/-- Maximal runs of characters satisfying `good`, as strings.
Used to model `re.findall` of character-class patterns and `str.split()`. -/
def charRunsAux (good : Char → Bool) : List Char → List Char → List String
  | cur, [] => if cur.isEmpty then [] else [String.mk cur.reverse]
  | cur, c :: rest =>
    if good c then charRunsAux good (c :: cur) rest
    else if cur.isEmpty then charRunsAux good [] rest
    else String.mk cur.reverse :: charRunsAux good [] rest

def charRuns (good : Char → Bool) (cs : List Char) : List String :=
  charRunsAux good [] cs

/-- Python `str.split()` with no argument: maximal non-whitespace runs. -/
def splitPyWs (s : String) : List String := charRuns (fun c => !c.isWhitespace) s.data

/-- ASCII lowercase letter or digit, the character class `[a-z0-9]`. -/
def isLowerAlnum (c : Char) : Bool := c.isDigit || (97 ≤ c.toNat && c.toNat ≤ 122)

/-- Model of `re.findall(r"[a-z0-9]+", s.lower())`. -/
def lowerTokens (s : String) : List String := charRuns isLowerAlnum (pyLower s).data

/-- Python `sub in s` (substring containment) on character lists. -/
def listInfix (needle : List Char) : List Char → Bool
  | [] => needle.isPrefixOf []
  | c :: rest => needle.isPrefixOf (c :: rest) || listInfix needle rest

/-- Python `a or b` on strings (`""` is falsy). -/
def pyOr (a b : String) : String := if a = "" then b else a

/-- Python `str(bool)`. -/
def pyStrBool (b : Bool) : String := if b then "True" else "False"

/-- Decimal digit character. -/
def digitChar (n : Nat) : Char := Char.ofNat (48 + n)

/-- Decimal rendering of a natural number (fuel-based, kernel-reducible);
models Python `str(n)` for `n : Nat`. -/
def natToStrAux : Nat → Nat → List Char
  | 0, _ => []
  | fuel + 1, n => if n < 10 then [digitChar n] else natToStrAux fuel (n / 10) ++ [digitChar (n % 10)]

def natToStr (n : Nat) : String := String.mk (natToStrAux (n + 1) n)

/-- Round half-to-even to an integer (Python's rounding mode for formatting). -/
def roundHalfEven (x : ℚ) : ℤ :=
  let f := ⌊x⌋
  let frac := x - (f : ℚ)
  if frac < 1/2 then f
  else if (1 : ℚ)/2 < frac then f + 1
  else if f % 2 = 0 then f else f + 1

/-- Left-pad a string with zeros to width `w`. -/
def padZeros (w : Nat) (s : String) : String :=
  String.mk (List.replicate (w - s.data.length) '0' ++ s.data)

/-- Fixed-point decimal formatting with `d` digits; models Python
f-string formatting such as "%.4f" applied to the rational value
(the tie-at-binary-midpoint behaviour of doubles is idealised to exact
half-even rounding of the rational). -/
def fmtFixed (d : Nat) (x : ℚ) : String :=
  let scaled := roundHalfEven (x * ((10 : ℚ) ^ d))
  let sign := if scaled < 0 then "-" else ""
  let a := scaled.natAbs
  sign ++ natToStr (a / 10 ^ d) ++ "." ++ padZeros d (natToStr (a % 10 ^ d))

/-- Python `str.title()` for ASCII text. -/
def pyTitleAux : Bool → List Char → List Char
  | _, [] => []
  | prevAlpha, c :: rest =>
    if c.isAlpha then
      (if prevAlpha then c.toLower else c.toUpper) :: pyTitleAux true rest
    else c :: pyTitleAux false rest

def pyTitle (s : String) : String := String.mk (pyTitleAux false s.data)

/-- Python `str.islower()` for ASCII text: at least one cased character and
no uppercase character. -/
def pyIsLowerStr (s : String) : Bool :=
  s.data.any Char.isAlpha && !(s.data.any Char.isUpper)

/-- Python `str.strip(chars)`: remove leading and trailing characters drawn
from `chars`. -/
def stripLeadingIn (chars : List Char) : List Char → List Char
  | [] => []
  | c :: rest => if chars.contains c then stripLeadingIn chars rest else c :: rest

def pyStripChars (s : String) (chars : String) : String :=
  String.mk ((stripLeadingIn chars.data ((stripLeadingIn chars.data s.data).reverse)).reverse)

/-! ### Word-boundary regex model

Python's `\b` (ASCII): a boundary lies between two positions exactly when
one side is a word character (`[A-Za-z0-9_]`) and the other is not
(string edges count as non-word). -/

def isWordChar (c : Char) : Bool := c.isAlphanum || c = '_'

def isWordCharOpt : Option Char → Bool
  | some c => isWordChar c
  | none => false

/-- Does the literal `needle`, wrapped in `\b ... \b`, match at the head of
`hay`, where `prev` is the character just before the current position? -/
def wordMatchAt (needle : List Char) (prev : Option Char) (hay : List Char) : Bool :=
  needle.isPrefixOf hay &&
    (isWordCharOpt prev != isWordCharOpt needle.head?) &&
    (isWordCharOpt needle.getLast? != isWordCharOpt (hay.drop needle.length).head?)

/-- Scan of `re.search(r"\b" + re.escape(needle) + r"\b", hay)` for a literal
`needle` (no regex metacharacters after escaping). -/
def wordSearchAux (needle : List Char) : Option Char → List Char → Bool
  | prev, [] => wordMatchAt needle prev []
  | prev, c :: rest => wordMatchAt needle prev (c :: rest) || wordSearchAux needle (some c) rest

def reWordSearch (needle hay : String) : Bool := wordSearchAux needle.data none hay.data

/-- One match attempt of `\b(19\d{2}|20\d{2})\b` at the current position. -/
def yearHit (prev : Option Char) (c1 c2 c3 c4 : Char) (next : Option Char) : Bool :=
  ((c1 = '1' && c2 = '9') || (c1 = '2' && c2 = '0')) && c3.isDigit && c4.isDigit &&
    !(isWordCharOpt prev) && !(isWordCharOpt next)

def yearVal (c1 c2 c3 c4 : Char) : Nat :=
  (c1.toNat - 48) * 1000 + (c2.toNat - 48) * 100 + (c3.toNat - 48) * 10 + (c4.toNat - 48)

/-- Model of `re.findall(r"\b(19\d{2}|20\d{2})\b", s)`. The scan tests every
position; since a match requires word boundaries on both sides, matches can
never overlap, so this coincides with `findall`'s non-overlapping scan. -/
def yearFindAll : Option Char → List Char → List Nat
  | _, [] => []
  | prev, c1 :: tail =>
    let later := yearFindAll (some c1) tail
    match tail with
    | c2 :: c3 :: c4 :: rest =>
      if yearHit prev c1 c2 c3 c4 rest.head? then yearVal c1 c2 c3 c4 :: later else later
    | _ => later

/-! ### pathlib model (POSIX) -/

/-- Split a character list on a separator character. -/
def splitOnCharAux (sep : Char) : List Char → List Char → List String
  | cur, [] => [String.mk cur.reverse]
  | cur, c :: rest =>
    if c = sep then String.mk cur.reverse :: splitOnCharAux sep [] rest
    else splitOnCharAux sep (c :: cur) rest

def splitOnChar (sep : Char) (s : String) : List String := splitOnCharAux sep [] s.data

/-- The non-root components of `pathlib.PurePosixPath(p).parts`:
empty and `"."` segments are dropped, `".."` is kept. -/
def pySegs (p : String) : List String :=
  (splitOnChar '/' p).filter (fun s => s != "" && s != ".")

def pyIsAbs (p : String) : Bool := p.data.head? == some '/'

/-- `pathlib.PurePosixPath(p).parts` (a leading `"/"` entry for absolute
paths, then the segments). -/
def pyParts (p : String) : List String :=
  (if pyIsAbs p then ["/"] else []) ++ pySegs p

/-- `PurePosixPath(p).name`. -/
def pyName (p : String) : String := ((pySegs p).getLast?).getD ""

/-- Index of the last `'.'` in a character list, if any. -/
def lastDotIdx (cs : List Char) : Option Nat :=
  match cs.reverse.findIdx? (fun c => c == '.') with
  | some j => some (cs.length - 1 - j)
  | none => none

/-- `(stem, suffix)` of a final path component, as in pathlib: the split
happens at the last dot only when it is neither the first nor the last
character. -/
def pyNameSplit (name : String) : String × String :=
  let cs := name.data
  match lastDotIdx cs with
  | some i =>
    if 0 < i ∧ i < cs.length - 1 then (String.mk (cs.take i), String.mk (cs.drop i))
    else (name, "")
  | none => (name, "")

def pyStemOfName (name : String) : String := (pyNameSplit name).1

def pySuffixOfName (name : String) : String := (pyNameSplit name).2

/-- `PurePosixPath(p).stem`. -/
def pyStem (p : String) : String := pyStemOfName (pyName p)

/-- `PurePosixPath(p).suffix`. -/
def pySuffix (p : String) : String := pySuffixOfName (pyName p)

/-- `str(PurePosixPath(p).parent)`. -/
def pyParentStr (p : String) : String :=
  let segs := (pySegs p).dropLast
  if pyIsAbs p then "/" ++ String.intercalate "/" segs
  else if segs.isEmpty then "." else String.intercalate "/" segs

/-- `PurePosixPath(p).parent.name`. -/
def pyParentName (p : String) : String := pyName (pyParentStr p)

/-- `PurePosixPath(p).relative_to(root)`, returning the remaining segments,
or `none` when `relative_to` raises `ValueError`. -/
def pyRelSegs (p root : String) : Option (List String) :=
  if pyIsAbs p == pyIsAbs root && (pySegs root).isPrefixOf (pySegs p) then
    some ((pySegs p).drop (pySegs root).length)
  else none

/-- `str(PurePosixPath(parent) / name)` for an already-normalised `parent`. -/
def pyJoin (parent name : String) : String :=
  if parent = "." then name
  else if parent = "/" then "/" ++ name
  else parent ++ "/" ++ name

/-- Python truthiness test `v in ("true","1","yes","y")` after strip+lower,
the `_is_true` helper of the planner and refine command. -/
def pyIsTrueStr (v : String) : Bool :=
  let s := pyLower (pyStrip v)
  s == "true" || s == "1" || s == "yes" || s == "y"

/-- Decimal parser for the simple `[+-]?digits[.digits]?` strings the system
writes into the Confidence CSV columns; models `float(s)` on such input. -/
def digitsVal (cs : List Char) : Nat :=
  cs.foldl (fun acc c => acc * 10 + (c.toNat - 48)) 0

def parseDecimal? (s : String) : Option ℚ :=
  let (sgn, body) :=
    match s.data with
    | '-' :: rest => ((-1 : ℚ), rest)
    | '+' :: rest => ((1 : ℚ), rest)
    | cs => ((1 : ℚ), cs)
  let intPart := body.takeWhile Char.isDigit
  let rest := body.dropWhile Char.isDigit
  match rest with
  | [] =>
    if intPart.isEmpty then none
    else some (sgn * (digitsVal intPart : ℚ))
  | '.' :: fracPart =>
    if fracPart.all Char.isDigit ∧ ¬ (intPart.isEmpty ∧ fracPart.isEmpty) then
      some (sgn * ((digitsVal intPart : ℚ) + (digitsVal fracPart : ℚ) / (10 : ℚ) ^ fracPart.length))
    else none
  | _ => none

/-- residuals.py `safe_float`: `''` and unparsable values fall back to the
default. -/
def safe_float (v : String) (default : ℚ := 0) : ℚ :=
  let s := pyStrip v
  if s = "" then default
  else (parseDecimal? s).getD default

/-! ### Data model

`Row` models a Mapping.csv row dict: the fields are the union of the keys
the embedded code reads or writes, with `""` standing for a missing key
(the code only ever accesses rows through `row.get(key, '')`-style reads). -/

structure Row where
  SourcePath : String := ""
  NodeID : String := ""
  Label : String := ""
  Confidence : String := ""
  Why : String := ""
  Action : String := ""
  TargetPath : String := ""
  IsResidual : String := ""
  ResidualReason : String := ""
  PassId : String := ""
  PreviousPassId : String := ""
  PreviousAction : String := ""
  PreviousConfidence : String := ""
  PreviousTargetPath : String := ""
  Domain : String := ""
  Kind : String := ""
  Entity : String := ""
  Year : String := ""
  CollisionIndex : String := ""
  OriginalTargetPath : String := ""
deriving Repr, DecidableEq

/-- schemas.py `FileResult` (the analyzer's verdict for one file); the
`path` is modelled as its string form. -/
structure FileResult where
  path : String
  label : String
  confidence : ℚ
  method : String
  why : String
  is_residual : Bool
  residual_reason : String
deriving Repr, DecidableEq

/-- detectors.py `Signal`. -/
structure Signal where
  label : String
  confidence : ℚ
  method : String
  why : String
deriving Repr, DecidableEq

/-! ### strategy/residuals.py -/

def HIGH_THRESHOLD : ℚ := 0.85

def MED_HIGH_THRESHOLD : ℚ := 0.75

def CONFIDENCE_CAP : ℚ := 0.99

/-- residuals.py `BoostResult`. -/
structure BoostResult where
  original_confidence : ℚ
  boosted_confidence : ℚ
  boost_applied : ℚ
  boost_reasons : List String
  action : String
  is_residual : Bool
deriving Repr, DecidableEq

/-- residuals.py `determine_action_from_confidence`. -/
def determine_action_from_confidence (confidence : ℚ) : String × Bool :=
  if confidence ≥ HIGH_THRESHOLD then ("MOVE", false)
  else if confidence ≥ MED_HIGH_THRESHOLD then ("SUGGEST", false)
  else ("RESIDUAL", true)

/-- Part filter of residuals.py `extract_prefix`: root-like parts are
skipped by the scan. -/
def isRootLikePart (part : String) : Bool :=
  part == "/" || part == "." || part == ".." || part.data.getLast? == some ':'

/-- Scan loop of residuals.py `extract_prefix`: on the first non-root-like
part, return the following part when one exists, else that part itself. -/
def findPfxLoop : List String → String
  | [] => ""
  | part :: rest =>
    if isRootLikePart part then findPfxLoop rest
    else match rest with
      | next :: _ => next
      | [] => part

/-- residuals.py `extract_prefix` (named `extract_pfx` here for file
hygiene): top-level folder prefix of a target path. -/
def extract_pfx (target_path : String) : String :=
  if target_path = "" then ""
  else findPfxLoop (pyParts target_path)

/-- residuals.py `normalize_entity`: lowercase, strip, separators to
spaces, collapse whitespace. -/
def normalize_entity (entity : String) : String :=
  if entity = "" then ""
  else
    let n := pyLower (pyStrip entity)
    let n := String.mk (n.data.map (fun c => if c = '-' ∨ c = '_' ∨ c = '.' then ' ' else c))
    String.intercalate " " (splitPyWs n)

/-- The `new_routed` dict handed to `calculate_confidence_boost`. -/
structure RoutedNew where
  Label : String
  Confidence : ℚ
  TargetPath : String
  Why : String
  Method : String
deriving Repr, DecidableEq

/-- residuals.py `calculate_confidence_boost`.

`new_entities` stands for `set(extract_entities_from_path(source_path))`:
that extraction (analyze/entities.py) is a pure function of the path, and
every theorem below quantifies over its possible results, so it enters the
embedding as an input rather than being re-derived from the path. -/
def calculate_confidence_boost (new_routed : RoutedNew) (old_row : Row)
    (new_entities : List String) : BoostResult :=
  let original_conf := new_routed.Confidence
  let new_pfx := extract_pfx new_routed.TargetPath
  let old_pfx := extract_pfx old_row.PreviousTargetPath
  let old_conf := safe_float (pyOr old_row.PreviousConfidence old_row.Confidence) 0
  let old_action := pyOr old_row.PreviousAction old_row.Action
  let old_label := old_row.Label
  let old_entities : List String := if old_label ≠ "" then [normalize_entity old_label] else []
  let entity_overlap := old_entities.any (fun e => new_entities.contains e)
  let pfx_changed : Bool := if new_pfx ≠ "" ∧ old_pfx ≠ "" then decide (new_pfx ≠ old_pfx) else false
  let entity_changed : Bool := if old_entities.isEmpty then false else !entity_overlap
  let has_conflict := pfx_changed && entity_changed
  let boostReasons : ℚ × List String :=
    if has_conflict then (0, ["prefix and entity both changed (conflict)"])
    else
      let b1 : ℚ × List String :=
        if new_pfx ≠ "" ∧ old_pfx ≠ "" ∧ new_pfx = old_pfx then
          (0.05, ["target prefix matches previous (" ++ new_pfx ++ ")"])
        else (0, [])
      let b2 :=
        if entity_overlap then (b1.1 + 0.05, b1.2 ++ ["entity matches previous classification"])
        else b1
      let b3 :=
        if old_action = "SUGGEST" ∧ original_conf > old_conf then
          (b2.1 + 0.03, b2.2 ++ ["confidence increased from previous SUGGEST"])
        else b2
      b3
  let boost := boostReasons.1
  let boosted_conf := min (original_conf + boost) CONFIDENCE_CAP
  let ar := determine_action_from_confidence boosted_conf
  { original_confidence := original_conf
    boosted_confidence := boosted_conf
    boost_applied := boost
    boost_reasons := boostReasons.2
    action := ar.1
    is_residual := ar.2 }

/-- residuals.py `apply_residual_refinement`: boost one residual row using
the fresh analysis result, chaining the Previous* history columns.
`entitiesOfPath` abstracts `extract_entities_from_path` as in
`calculate_confidence_boost`. -/
def apply_residual_refinement (old_mapping_row : Row) (res : FileResult)
    (pass_id : Nat) (entitiesOfPath : String → List String) : Row :=
  let new_routed : RoutedNew :=
    { Label := res.label
      Confidence := res.confidence
      TargetPath := old_mapping_row.TargetPath
      Why := res.why
      Method := res.method }
  let br := calculate_confidence_boost new_routed old_mapping_row (entitiesOfPath res.path)
  let why :=
    if br.boost_applied > 0 then
      res.why ++ " [+" ++ fmtFixed 2 br.boost_applied ++ " boost: " ++
        String.intercalate ", " br.boost_reasons ++ "]"
    else res.why
  { SourcePath := res.path
    NodeID := old_mapping_row.NodeID
    Label := res.label
    Confidence := fmtFixed 4 br.boosted_confidence
    Why := why
    Action := br.action
    TargetPath := old_mapping_row.TargetPath
    IsResidual := pyStrBool br.is_residual
    ResidualReason := if br.is_residual then res.residual_reason else ""
    PassId := natToStr pass_id
    PreviousPassId := old_mapping_row.PassId
    PreviousAction := old_mapping_row.Action
    PreviousConfidence := old_mapping_row.Confidence
    PreviousTargetPath := old_mapping_row.TargetPath }

/-! ### strategy/planner.py: canonical dimensions and hint tables -/

def DOMAINS : List String :=
  ["Personal", "Business", "Work", "Finance", "Projects",
   "Health", "Legal", "Family", "Creative", "Learning",
   "Travel", "Home", "Media", "Software", "Archive"]

def KINDS : List String :=
  ["Photos", "Videos", "Audio", "Documents", "Notes", "Records",
   "Receipts", "Invoices", "Statements", "Contracts", "IDs",
   "Reports", "Summaries", "Plans", "Taxes", "Insurance",
   "Assets", "Certificates", "Applications", "Forms",
   "Screenshots", "Exports", "Backups", "Installers"]

/-- planner.py `DOMAIN_HINTS` (dict membership lookup). -/
def DOMAIN_HINTS (t : String) : Option (String × ℚ) :=
  if t = "invoice" then some ("Finance", 0.8)
  else if t = "bank" then some ("Finance", 0.7)
  else if t = "statement" then some ("Finance", 0.7)
  else if t = "receipt" then some ("Finance", 0.6)
  else if t = "tax" then some ("Finance", 0.8)
  else if t = "payment" then some ("Finance", 0.6)
  else if t = "contract" then some ("Legal", 0.8)
  else if t = "agreement" then some ("Legal", 0.8)
  else if t = "medical" then some ("Health", 0.8)
  else if t = "health" then some ("Health", 0.8)
  else if t = "travel" then some ("Travel", 0.8)
  else if t = "flight" then some ("Travel", 0.7)
  else none

/-- planner.py `KIND_HINTS`. -/
def KIND_HINTS (t : String) : Option (String × ℚ) :=
  if t = "invoice" then some ("Invoices", 0.9)
  else if t = "receipt" then some ("Receipts", 0.9)
  else if t = "statement" then some ("Statements", 0.9)
  else if t = "contract" then some ("Contracts", 0.9)
  else if t = "photo" then some ("Photos", 0.8)
  else if t = "video" then some ("Videos", 0.8)
  else none

/-- planner.py `LABEL_TO_DOMAIN`, in dict insertion order (the routing loop
iterates `.items()`). -/
def LABEL_TO_DOMAIN : List (String × String) :=
  [("finance", "Finance"), ("legal", "Legal"), ("health", "Health"),
   ("photo", "Personal"), ("video", "Media"), ("audio", "Media")]

/-- planner.py `LABEL_TO_KIND` (exact-key lookup). -/
def LABEL_TO_KIND (label : String) : Option String :=
  if label = "finance.invoice" then some "Invoices"
  else if label = "finance.receipt" then some "Receipts"
  else if label = "finance.statement" then some "Statements"
  else if label = "legal.contract" then some "Contracts"
  else if label = "photo" then some "Photos"
  else if label = "video" then some "Videos"
  else if label = "audio" then some "Audio"
  else none

def JUNK_WORDS : List String :=
  ["copy", "copyof", "final", "new", "scan", "export", "backup",
   "old", "misc", "temp", "documents", "docs", "files", "folder",
   "downloads", "desktop", "archive"]

def GENERIC_CATEGORIES : List String :=
  ["invoices", "receipts", "statements", "contracts",
   "photos", "videos", "documents", "reports"]

def ENTITY_MIN_SCORE : ℚ := 2.0

/-! ### planner.py: routing helpers -/

/-- Increment a score-table entry, modelling `scores[key] += amt` (every
key the code bumps is present in the table). -/
def bumpScore (sc : List (String × ℚ)) (key : String) (amt : ℚ) : List (String × ℚ) :=
  sc.map (fun p => if p.1 = key then (p.1, p.2 + amt) else p)

/-- First item with the maximal score, modelling Python
`max(scores.items(), key=lambda x: x[1])` over an insertion-ordered dict. -/
def argmaxFirst : List (String × ℚ) → Option (String × ℚ)
  | [] => none
  | x :: rest =>
    match argmaxFirst rest with
    | none => some x
    | some b => if b.2 > x.2 then some b else some x

/-- Python `str.startswith`. -/
def strStartsWith (s pre : String) : Bool := pre.data.isPrefixOf s.data

/-- planner.py `extract_tokens`. -/
def extract_tokens (p : String) (root : Option String) : List String × List String :=
  let filename_tokens := lowerTokens (pyStem p)
  let parent_tokens : List String :=
    match root with
    | some r =>
      match pyRelSegs (pyParentStr p) r with
      | some parts => parts.foldl (fun acc part => acc ++ lowerTokens part) []
      | none => []
    | none => []
  (filename_tokens, parent_tokens)

/-- planner.py `choose_domain`. -/
def choose_domain (label : String) (tokens parent_tokens : List String) : String :=
  let scores0 : List (String × ℚ) := DOMAINS.map (fun d => (d, 0))
  let scores1 := LABEL_TO_DOMAIN.foldl
    (fun sc pd => if strStartsWith label pd.1 then bumpScore sc pd.2 0.7 else sc) scores0
  let scores2 := (tokens ++ parent_tokens).foldl
    (fun sc t =>
      match DOMAIN_HINTS t with
      | some db => bumpScore sc db.1 db.2
      | none => sc) scores1
  match argmaxFirst scores2 with
  | some best => if best.2 ≥ 0.4 then best.1 else "Archive"
  | none => "Archive"

/-- planner.py `choose_kind`. -/
def choose_kind (label : String) (tokens : List String) (extension : String) : String :=
  let scores0 : List (String × ℚ) := KINDS.map (fun k => (k, 0))
  let scores1 :=
    match LABEL_TO_KIND label with
    | some k => bumpScore scores0 k 0.8
    | none => scores0
  let scores2 := tokens.foldl
    (fun sc t =>
      match KIND_HINTS t with
      | some kb => bumpScore sc kb.1 kb.2
      | none => sc) scores1
  let ext := pyLower extension
  let scores3 :=
    if ext ∈ [".jpg", ".png", ".jpeg", ".gif", ".heic"] then bumpScore scores2 "Photos" 0.7
    else if ext ∈ [".mp4", ".mov", ".mkv", ".avi"] then bumpScore scores2 "Videos" 0.7
    else if ext ∈ [".mp3", ".wav", ".m4a", ".flac"] then bumpScore scores2 "Audio" 0.7
    else if ext ∈ [".pdf", ".docx", ".doc", ".txt", ".rtf"] then bumpScore scores2 "Documents" 0.4
    else scores2
  match argmaxFirst scores3 with
  | some best => if best.2 ≥ 0.3 then best.1 else "Documents"
  | none => "Documents"

/-! ### planner.py: entity extraction pipeline (Spec C) -/

/-- planner.py `normalize_segment`. -/
def normalize_segment (text : String) : String :=
  let t := String.mk (text.data.map (fun c => if c = '_' ∨ c = '-' then ' ' else c))
  pyStrip (String.intercalate " " (splitPyWs t))

/-- Exact match of `^(19|20)\d{2}$`. -/
def isYearText (text : String) : Bool :=
  match text.data with
  | [c1, c2, c3, c4] =>
    ((c1 = '1' && c2 = '9') || (c1 = '2' && c2 = '0')) && c3.isDigit && c4.isDigit
  | _ => false

/-- planner.py `is_junk`. -/
def is_junk (text : String) : Bool :=
  if text.data.length < 2 then true
  else
    let tokens := lowerTokens text
    if tokens.isEmpty then true
    else if tokens.all (fun t => JUNK_WORDS.contains t) then true
    else if GENERIC_CATEGORIES.contains (pyLower text) then true
    else if isYearText text then true
    else false

/-- Model of `re.search(r"[a-z][A-Z]", text)`. -/
def hasCamel : List Char → Bool
  | a :: b :: rest => (a.isLower && b.isAlpha && b.isUpper) || hasCamel (b :: rest)
  | _ => false

/-- Three consecutive ASCII letters somewhere: the `[a-zA-Z]{3,}` tail. -/
def hasThreeLetters : List Char → Bool
  | a :: b :: c :: rest => (a.isAlpha && b.isAlpha && c.isAlpha) || hasThreeLetters (b :: c :: rest)
  | _ => false

/-- Length of the leading digit run. -/
def digitRunLen : List Char → Nat
  | c :: rest => if c.isDigit then digitRunLen rest + 1 else 0
  | [] => 0

/-- Match attempt of `\b\d{3,5}\b.*[a-zA-Z]{3,}` at the current position. -/
def addressPatAt (prev : Option Char) (cs : List Char) : Bool :=
  if isWordCharOpt prev then false
  else
    let k := digitRunLen cs
    if 3 ≤ k ∧ k ≤ 5 ∧ ¬ isWordCharOpt ((cs.drop k).head?) then hasThreeLetters (cs.drop k)
    else false

/-- Scan of `re.search(r"\b\d{3,5}\b.*[a-zA-Z]{3,}", text)`. -/
def addressPatSearch : Option Char → List Char → Bool
  | prev, [] => addressPatAt prev []
  | prev, c :: rest => addressPatAt prev (c :: rest) || addressPatSearch (some c) rest

/-- Python `text and text[0].isupper()`. -/
def firstIsUpper (text : String) : Bool :=
  match text.data with
  | c :: _ => c.isUpper
  | [] => false

/-- planner.py `score_entity_candidate` (the `position` parameter of the
source is unused by its body and omitted here). -/
def score_entity_candidate (text : String) (source : String) : ℚ :=
  let s1 : ℚ := if source = "parent" then 2.0 else if source = "filename" then 1.0 else 0
  let s2 := s1 + (if hasCamel text.data then 1.0 else 0)
  let s3 := s2 + (if addressPatSearch none text.data then 2.0 else 0)
  let s4 := s3 + (if firstIsUpper text then 0.8 else 0)
  max s4 0

/-- planner.py `canonicalize_entity`. -/
def canonicalize_entity (text : String) : String :=
  let t := String.intercalate " " (splitPyWs (pyStrip text))
  let t := pyStripChars t ".-_"
  if pyIsLowerStr t then pyTitle t else t

/-- Stable descending insertion by score: models Python
`scored.sort(key=lambda x: x["score"], reverse=True)`. -/
def insertScoreDesc (x : String × ℚ) : List (String × ℚ) → List (String × ℚ)
  | [] => [x]
  | y :: ys => if y.2 > x.2 then y :: insertScoreDesc x ys else x :: y :: ys

def sortByScoreDesc (l : List (String × ℚ)) : List (String × ℚ) :=
  l.foldr insertScoreDesc []

/-- planner.py `extract_entity` (the `tokens`/`parent_tokens` parameters of
the source are unused by its body and omitted here).
Returns `(entity or none, confidence)`. -/
def extract_entity (source_path : String) : Option String × ℚ :=
  let parentCand : List (String × String) :=
    if pyParentName source_path ≠ "" then [(pyParentName source_path, "parent")] else []
  let candidates := parentCand ++ [(pyStem source_path, "filename")]
  let scored := candidates.filterMap (fun cand =>
    let norm := normalize_segment cand.1
    if norm = "" then none
    else if is_junk norm then none
    else
      let score := score_entity_candidate norm cand.2
      if score > 0 then some (norm, score) else none)
  match sortByScoreDesc scored with
  | [] => (none, 0)
  | winner :: _ =>
    if winner.2 < ENTITY_MIN_SCORE then (none, winner.2 / ENTITY_MIN_SCORE)
    else (some (canonicalize_entity winner.1), min (winner.2 / 5) 1)

/-- planner.py `extract_year`: scan the stem, then the parent path string;
`current_year` models `datetime.now().year`. -/
def yearPick (current_year : Nat) (ms : List Nat) : Option Nat :=
  ms.reverse.find? (fun y => decide (1990 ≤ y ∧ y ≤ current_year + 1))

def extract_year (current_year : Nat) (p : String) : Option Nat :=
  match yearPick current_year (yearFindAll none (pyStem p).data) with
  | some y => some y
  | none => yearPick current_year (yearFindAll none (pyParentStr p).data)

/-- planner.py `build_prefix` (named `build_pfx` here for file hygiene):
`str(Path(*segments))`, or `""` when no segment is known. -/
def build_pfx (domain kind : String) (entity : Option String) (year : Option Nat) : String :=
  let segments :=
    (if domain ≠ "" then [domain] else []) ++
    (if kind ≠ "" then [kind] else []) ++
    (match entity with
     | some e => if e ≠ "" then [e] else []
     | none => []) ++
    (match year with
     | some y => [natToStr y]
     | none => [])
  String.intercalate "/" segments

/-- planner.py `determine_action` (routing step 7). -/
def determine_action (confidence : ℚ) : String × Bool :=
  if confidence ≥ 0.85 then ("Move", false)
  else if confidence ≥ 0.75 then ("Suggest", true)
  else if confidence ≥ 0.60 then ("Skip", true)
  else ("Skip", false)

/-- planner.py `build_why` (its `label`/`tokens` parameters are unused by
its body and omitted here). -/
def build_why (domain kind : String) (entity : Option String) (year : Option Nat) : String :=
  let parts :=
    (if domain ≠ "" then ["Domain=" ++ domain] else []) ++
    (if kind ≠ "" then ["Kind=" ++ kind] else []) ++
    (match entity with
     | some e => if e ≠ "" then ["Entity=" ++ e] else []
     | none => []) ++
    (match year with
     | some y => ["Year=" ++ natToStr y]
     | none => [])
  if parts.isEmpty then "No clear classification" else String.intercalate ", " parts

/-- The routing-result dict built by planner.py `route_file`
(`semantic_prefix` is named `semantic_pfx` here for file hygiene). -/
structure Routed where
  source_path : String
  domain : String
  kind : String
  entity : Option String
  year : Option Nat
  semantic_pfx : String
  confidence : ℚ
  action : String
  is_residual : Bool
  why : String
deriving Repr, DecidableEq

/-- planner.py `route_file` (7-step routing): the FileResult argument enters
as its `label`/`confidence`/`path` projections; `current_year` models
`datetime.now().year` inside `extract_year`. -/
def route_file (label : String) (confidence : ℚ) (path : String)
    (root : Option String) (current_year : Nat) : Routed :=
  let tp := extract_tokens path root
  let domain := choose_domain label tp.1 tp.2
  let kind := choose_kind label tp.1 (pySuffix path)
  let ec := extract_entity path
  let entity := if ec.2 < 0.75 then none else ec.1
  let year := extract_year current_year path
  let pfx := build_pfx domain kind entity year
  let ar := determine_action confidence
  { source_path := path
    domain := domain
    kind := kind
    entity := entity
    year := year
    semantic_pfx := pfx
    confidence := confidence
    action := ar.1
    is_residual := ar.2
    why := build_why domain kind entity year }

/-! ### planner.py: collision resolution -/

/-- The `__dupN` rename: `str(Path(t).parent / (stem + "__dupN" + suffix))`. -/
def renameDup (target : String) (dup_index : Nat) : String :=
  let name := pyName target
  let new_name := pyStemOfName name ++ "__dup" ++ natToStr dup_index ++ pySuffixOfName name
  pyJoin (pyParentStr target) new_name

/-- One step of the `resolve_collisions_in_mapping` loop; the occurrence
dict is modelled as a function `String → Nat` with `0` for "absent"
(the dict only ever stores values `≥ 1`). -/
def collStep (st : (String → Nat) × List Row) (row : Row) : (String → Nat) × List Row :=
  let occ := st.1
  let target := pyStrip row.TargetPath
  if target = "" then (occ, st.2 ++ [row])
  else if occ target ≠ 0 then
    let dup_index := occ target
    (fun t => if t = target then occ target + 1 else occ t,
     st.2 ++ [{ row with
        TargetPath := renameDup target dup_index
        CollisionIndex := natToStr dup_index
        OriginalTargetPath := target }])
  else
    (fun t => if t = target then 1 else occ t,
     st.2 ++ [{ row with CollisionIndex := "0" }])

/-- planner.py `resolve_collisions_in_mapping`. -/
def resolve_collisions_in_mapping (mapping_rows : List Row) : List Row :=
  (mapping_rows.foldl collStep (fun _ => 0, [])).2

/-! ### analyze/analyzer.py -/

def HIGH : ℚ := 0.85

def MED_HIGH : ℚ := 0.75

def MED : ℚ := 0.65

def MED_LOW : ℚ := 0.50

def LOW : ℚ := 0.40

def VERY_LOW : ℚ := 0.30

/-- The ambiguous-filename substrings of analyzer.py `determine_residual`. -/
def AMBIGUOUS_PATTERNS : List String :=
  ["temp", "tmp", "copy", "backup", "old", "new",
   "test", "sample", "example", "untitled", "document"]

/-- analyzer.py `determine_residual`: returns `(is_residual, joined reasons)`. -/
def determine_residual (label : String) (confidence : ℚ) (method : String)
    (path : String) : Bool × String :=
  let reasons0 : List String := []
  let reasons1 :=
    if label = "" ∨ (pyLower label) ∈ ["uncategorized", "unknown", "misc", ""] then
      if label = "misc" then reasons0 ++ ["generic/miscellaneous classification"]
      else reasons0 ++ ["no clear category"]
    else reasons0
  let reasons2 :=
    if confidence < LOW then
      reasons1 ++ ["confidence " ++ fmtFixed 2 confidence ++ " below threshold 0.4"]
    else if confidence < MED_LOW ∧ label ∈ ["misc", "dated_files", "empty_files"] then
      reasons1 ++ ["weak classification as '" ++ label ++ "'"]
    else if method ∈ ["size", "date_pattern"] ∧ confidence < MED then
      reasons1 ++ ["only matched by " ++ method ++ " heuristic"]
    else reasons1
  let filename := pyLower (pyName path)
  let reasons3 :=
    if AMBIGUOUS_PATTERNS.any (fun pat => listInfix pat.data filename.data) ∧ confidence < MED_HIGH then
      reasons2 ++ ["ambiguous filename pattern"]
    else reasons2
  let reasons4 :=
    if label = "dated_files" ∧ confidence < MED then
      reasons3 ++ ["date-only classification needs context"]
    else reasons3
  (!reasons4.isEmpty, if reasons4.isEmpty then "" else String.intercalate "; " reasons4)

/-- analyzer.py `pick_label`: per-method priority factor. -/
def method_priority (m : String) : ℚ :=
  if m = "extension" then 1.0
  else if m = "keyword" then 0.9
  else if m = "content" then 0.85
  else if m = "date_pattern" then 0.5
  else if m = "size" then 0.3
  else 0.5

/-- analyzer.py `pick_label`: the sort key `signal_score` (adjusted
confidence times method priority, then explanation length / 100). -/
def signal_score (penalty : ℚ) (s : Signal) : ℚ × ℚ :=
  ((s.confidence - penalty) * method_priority s.method, (s.why.data.length : ℚ) / 100)

/-- Strict lexicographic comparison on sort keys (Python tuple `>`). -/
def keyGTb (a b : ℚ × ℚ) : Bool :=
  decide (a.1 > b.1 ∨ (a.1 = b.1 ∧ a.2 > b.2))

/-- Stable descending insertion by `signal_score`, modelling
`strong_signals.sort(key=signal_score, reverse=True)` (Python's sort is
stable; `reverse=True` keeps equal-key elements in original order). -/
def insertSigDesc (penalty : ℚ) (x : Signal) : List Signal → List Signal
  | [] => [x]
  | y :: ys =>
    if keyGTb (signal_score penalty y) (signal_score penalty x) then
      y :: insertSigDesc penalty x ys
    else x :: y :: ys

def sortSignalsDesc (penalty : ℚ) (l : List Signal) : List Signal :=
  l.foldr (insertSigDesc penalty) []

/-- The "no match" Signal returned by analyzer.py `pick_label`. -/
def noMatchSignal : Signal :=
  { label := "", confidence := 0, method := "none", why := "no detector matched" }

/-- analyzer.py `pick_label`: the `strong_signals` selection (signals at or
above VERY_LOW, falling back to all signals when none qualify). -/
def strong_signals_of (signals : List Signal) : List Signal :=
  let strong0 := signals.filter (fun s => decide (s.confidence ≥ VERY_LOW))
  if strong0.isEmpty then signals else strong0

/-- analyzer.py `pick_label`. -/
def pick_label (signals : List Signal) : Signal :=
  if signals.isEmpty then noMatchSignal
  else
    let strong_signals := strong_signals_of signals
    let high_conf_labels :=
      ((strong_signals.filter (fun s => decide (s.confidence ≥ MED_HIGH))).map Signal.label).dedup
    let confidence_penalty : ℚ := if high_conf_labels.length > 1 then 0.15 else 0
    match sortSignalsDesc confidence_penalty strong_signals with
    | [] => noMatchSignal
    | best :: _ =>
      if confidence_penalty > 0 then
        { label := best.label
          confidence := max (best.confidence - confidence_penalty) VERY_LOW
          method := best.method
          why := best.why ++ " (multiple classifications detected)" }
      else best

/-- analyzer.py `analyze_paths`, refinement-iteration step (lines 208-217):
on pass `> 1`, a non-residual result with confidence `≥ MED_LOW` is boosted
`× 1.1` (capped at 0.95) and the explanation is annotated. -/
def refinement_iteration_adjust (refinement_iteration : Nat) (is_residual : Bool)
    (best : Signal) : Signal :=
  if refinement_iteration > 1 ∧ is_residual = false then
    if best.confidence ≥ MED_LOW then
      { label := best.label
        confidence := min (best.confidence * 1.1) 0.95
        method := best.method
        why := best.why ++ " (iteration " ++ natToStr refinement_iteration ++ ")" }
    else best
  else best

/-! ### analyze/detectors.py (extension and keyword detectors) -/

/-- detectors.py `Detector.adjust_confidence` with the default
`confidence_boost = 0.0` used by `get_default_detectors`. -/
def adjust_confidence (base_confidence : ℚ) : ℚ :=
  min (base_confidence + 0) 0.95

/-- detectors.py `ExtensionDetector.extension_map`, in dict insertion
order: `(label, extensions, confidence)`. -/
def extension_map : List (String × List String × ℚ) :=
  [("documents", [".pdf", ".doc", ".docx", ".txt", ".rtf", ".odt", ".tex", ".md", ".rst"], 0.85),
   ("spreadsheets", [".xlsx", ".xls", ".csv", ".tsv", ".ods"], 0.85),
   ("code", [".py", ".js", ".html", ".css", ".java", ".cpp", ".c",
             ".h", ".jsx", ".ts", ".tsx", ".go", ".rs", ".rb",
             ".php", ".swift", ".kt", ".scala", ".r", ".m", ".sh",
             ".bat", ".ps1", ".yaml", ".yml", ".toml"], 0.90),
   ("data", [".json", ".xml", ".db", ".sql", ".parquet",
             ".feather", ".hdf", ".h5", ".mat", ".npy", ".pkl"], 0.85),
   ("images", [".jpg", ".jpeg", ".png", ".gif", ".bmp", ".svg",
               ".ico", ".tiff", ".webp", ".raw", ".psd", ".ai"], 0.90),
   ("videos", [".mp4", ".avi", ".mov", ".wmv", ".flv", ".mkv",
               ".webm", ".m4v", ".mpg", ".mpeg"], 0.90),
   ("audio", [".mp3", ".wav", ".flac", ".aac", ".ogg", ".wma",
              ".m4a", ".opus", ".aiff"], 0.90),
   ("archives", [".zip", ".tar", ".gz", ".rar", ".7z", ".bz2",
                 ".xz", ".tar.gz", ".tar.bz2", ".tar.xz"], 0.95),
   ("executables", [".exe", ".msi", ".app", ".deb", ".rpm", ".dmg",
                    ".pkg", ".appimage", ".snap"], 0.85),
   ("configs", [".ini", ".cfg", ".conf", ".config", ".env",
                ".properties", ".plist"], 0.75),
   ("logs", [".log", ".out", ".err"], 0.70)]

def strEndsWithStr (s suf : String) : Bool := suf.data.isSuffixOf s.data

/-- detectors.py `ExtensionDetector.score`. -/
def extensionDetectorScore (path : String) : Option Signal :=
  let ext := pyLower (pySuffix path)
  if strEndsWithStr (pyLower (pyName path)) ".tar.gz" ||
     strEndsWithStr (pyLower (pyName path)) ".tar.bz2" ||
     strEndsWithStr (pyLower (pyName path)) ".tar.xz" then
    some { label := "archives", confidence := adjust_confidence 0.95,
           method := "extension", why := "matched archive extension" }
  else if ext = "" then none
  else
    match extension_map.find? (fun entry => entry.2.1.contains ext) with
    | some entry =>
      some { label := entry.1, confidence := adjust_confidence entry.2.2,
             method := "extension", why := "matched " ++ ext ++ " extension" }
    | none =>
      some { label := "misc", confidence := adjust_confidence 0.25,
             method := "extension", why := "unknown extension " ++ ext }

/-- detectors.py `KeywordDetector.keyword_patterns`, in dict insertion
order: `(label, keywords, confidence)`. -/
def keyword_patterns : List (String × List String × ℚ) :=
  [("finance", ["invoice", "receipt", "tax", "1099", "w2", "w-2", "paystub",
                "statement", "bill", "expense", "budget", "financial",
                "payment", "transaction"], 0.75),
   ("contracts", ["contract", "agreement", "nda", "msa", "sow", "terms",
                  "legal", "amendment", "addendum"], 0.80),
   ("presentations", ["slides", "presentation", "deck", "pitch", "keynote",
                      "powerpoint", "ppt"], 0.70),
   ("reports", ["report", "analysis", "summary", "review", "assessment",
                "evaluation", "study", "findings"], 0.65),
   ("resumes", ["resume", "cv", "curriculum", "vitae", "portfolio"], 0.85),
   ("personal", ["personal", "private", "confidential", "diary", "journal"], 0.60),
   ("projects", ["project", "proposal", "plan", "roadmap", "milestone",
                 "deliverable", "scope"], 0.65),
   ("marketing", ["marketing", "campaign", "advertising", "promotion",
                  "brochure", "flyer", "newsletter"], 0.70),
   ("medical", ["medical", "health", "prescription", "diagnosis",
                "treatment", "patient", "clinical"], 0.75),
   ("education", ["course", "syllabus", "lecture", "homework", "assignment",
                  "exam", "quiz", "study", "notes"], 0.70)]

/-- One iteration of the keyword loop of `KeywordDetector.score`: the state
is `(best_match, best_confidence)`, starting at `(none, 0)`; a strictly
greater confidence replaces the state. -/
def kwStep (filename_lower stem_lower label : String) (labelConf : ℚ)
    (st : Option (String × String) × ℚ) (keyword : String) :
    Option (String × String) × ℚ :=
  if reWordSearch keyword filename_lower || reWordSearch keyword stem_lower then
    let confidence := labelConf
    let confidence := if keyword = stem_lower then min (confidence + 0.1) 0.95 else confidence
    if confidence > st.2 then (some (label, keyword), confidence)
    else st
  else st

/-- The nested loop of `KeywordDetector.score` over the pattern table. -/
def kwFold (filename_lower stem_lower : String)
    (entries : List (String × List String × ℚ))
    (st : Option (String × String) × ℚ) : Option (String × String) × ℚ :=
  entries.foldl
    (fun st entry => entry.2.1.foldl (kwStep filename_lower stem_lower entry.1 entry.2.2) st)
    st

/-- detectors.py `KeywordDetector.score`: best whole-word keyword match over
filename and stem; strictly-greater confidence wins, ties keep the earlier
match in iteration order. -/
def keywordDetectorScore (path : String) : Option Signal :=
  let filename_lower := pyLower (pyName path)
  let stem_lower := pyLower (pyStem path)
  let st := kwFold filename_lower stem_lower keyword_patterns (none, 0)
  match st.1 with
  | some lk =>
    some { label := lk.1, confidence := adjust_confidence st.2,
           method := "keyword", why := "contains '" ++ lk.2 ++ "' in filename" }
  | none => none

/-! ### commands/refine_residuals.py (Residual Loop v1 pipeline) -/

/-- Lookup in the `residual_path_to_row` dict, modelled as an association
list; later insertions overwrite earlier ones, hence the reversed search. -/
def lookupRow (assoc : List (String × Row)) (k : String) : Option Row :=
  (assoc.reverse.find? (fun pr => pr.1 == k)).map Prod.snd

/-- commands/refine_residuals.py `run`, steps 2-6 (the pure pipeline):
filter residual rows, re-analyze their paths, boost each via
`apply_residual_refinement`, and append the refined rows after the
untouched non-residual rows.

`analyze` abstracts `analyze_paths` on a single path of the batch; the
modelling assumes every residual `SourcePath` is a live regular file (the
spec's mapping invariant), so step 3's existence filter keeps all residual
rows and `analyze_paths` yields one result per path in order.
`entitiesOfPath` abstracts `extract_entities_from_path` as before. -/
def refineRun (mapping_rows : List Row) (analyze : String → FileResult)
    (iteration : Nat) (entitiesOfPath : String → List String) : List Row :=
  let residual_rows := mapping_rows.filter (fun r => pyIsTrueStr r.IsResidual)
  let non_residual_rows := mapping_rows.filter (fun r => !pyIsTrueStr r.IsResidual)
  let residual_path_to_row := residual_rows.map (fun r => (r.SourcePath, r))
  let results := residual_rows.map (fun r => analyze r.SourcePath)
  let updated_residual_rows := results.filterMap (fun res =>
    match lookupRow residual_path_to_row res.path with
    | some old_row => some (apply_residual_refinement old_row res iteration entitiesOfPath)
    | none => none)
  non_residual_rows ++ updated_residual_rows

/-!
## Theorems

Each claim of the specification gets one theorem (with a witness when the
theorem carries hypotheses, and a counterexample where the claim as stated
fails on the code). Helper lemmas come first.
-/

/-- C1: evidence of the code bug in the MED_HIGH band. At boosted
confidence 0.80, residuals.py `determine_action_from_confidence` returns
`("SUGGEST", false)` — not residual — while planner step 7
(`determine_action`) returns `("Suggest", true)` at the same confidence and
the function's own docstring specifies `IsResidual=True` for the band; the
low band also yields action `"RESIDUAL"` rather than the planner's
`"Skip"`. -/
theorem c1_medhigh_band_flag_divergence :
    determine_action_from_confidence 0.80 = ("SUGGEST", false) ∧
    determine_action 0.80 = ("Suggest", true) ∧
    determine_action_from_confidence 0.70 = ("RESIDUAL", true) ∧
    determine_action 0.70 = ("Skip", true) := by
  refine ⟨?_, ?_, ?_, ?_⟩ <;>
    norm_num [determine_action_from_confidence, determine_action,
      HIGH_THRESHOLD, MED_HIGH_THRESHOLD]

/-- C2 (counterexample): a FileResult labelled "empty_files" with
confidence 0.9 is routed to action "Move", not "Suggest" — the router has
no special case for the anomalous labels. -/
theorem c2_special_label_not_suggest :
    (route_file "empty_files" 0.9 "/scan/inc/x.bin" (some "/scan") 2026).action = "Move" ∧
    (route_file "empty_files" 0.9 "/scan/inc/x.bin" (some "/scan") 2026).action ≠ "Suggest" := by
  have h : (route_file "empty_files" 0.9 "/scan/inc/x.bin" (some "/scan") 2026).action
      = (determine_action 0.9).1 := rfl
  have ha : (determine_action 0.9).1 = "Move" := by norm_num [determine_action]
  rw [h, ha]
  exact ⟨rfl, by decide⟩

/-- C2 (amended): for the special-case labels "empty_files" and
"large_files" the router's action is exactly the confidence-tier action of
`determine_action` (Move at ≥ 0.85, Suggest at ≥ 0.75, Skip otherwise); the
label plays no role in the action. -/
theorem c2_amended_special_labels_use_tiers (label : String) (confidence : ℚ)
    (path : String) (root : Option String) (current_year : Nat)
    (h : label = "empty_files" ∨ label = "large_files") :
    (route_file label confidence path root current_year).action
      = (determine_action confidence).1 := rfl

/-- C2 amended, witness at label "empty_files", confidence 0.9. -/
theorem c2_amended_special_labels_use_tiers_witness :
    (("empty_files" : String) = "empty_files" ∨ ("empty_files" : String) = "large_files") ∧
    (route_file "empty_files" 0.9 "/scan/inc/x.bin" (some "/scan") 2026).action
      = (determine_action 0.9).1 :=
  ⟨Or.inl rfl,
   c2_amended_special_labels_use_tiers "empty_files" 0.9 "/scan/inc/x.bin"
     (some "/scan") 2026 (Or.inl rfl)⟩

/-- C4: conflict boost suppression. When the previous pass recorded a
target prefix and a label-derived entity signal, and the new pass's prefix
differs from the previous one while the newly extracted entities miss the
previous entity signal, the boost is exactly 0 and the boosted confidence
is the un-boosted confidence capped at 0.99. -/
theorem c4_conflict_boost_suppression (new_routed : RoutedNew) (old_row : Row)
    (new_entities : List String)
    (hnew : extract_pfx new_routed.TargetPath ≠ "")
    (hold : extract_pfx old_row.PreviousTargetPath ≠ "")
    (hdiff : extract_pfx new_routed.TargetPath ≠ extract_pfx old_row.PreviousTargetPath)
    (hlabel : old_row.Label ≠ "")
    (hent : new_entities.contains (normalize_entity old_row.Label) = false) :
    (calculate_confidence_boost new_routed old_row new_entities).boost_applied = 0 ∧
    (calculate_confidence_boost new_routed old_row new_entities).boosted_confidence
      = min new_routed.Confidence CONFIDENCE_CAP := by
  have hmem : normalize_entity old_row.Label ∉ new_entities := by
    simpa using hent
  simp [calculate_confidence_boost, hnew, hold, hdiff, hlabel, hmem]

/-- C4, witness: a concrete conflicting refinement (prefix `A` vs `B`,
previous label "acme" absent from the new entities). -/
theorem c4_conflict_boost_suppression_witness :
    extract_pfx "Sorted/A/f.txt" ≠ "" ∧
    extract_pfx "Sorted/B/f.txt" ≠ "" ∧
    extract_pfx "Sorted/A/f.txt" ≠ extract_pfx "Sorted/B/f.txt" ∧
    ("acme" : String) ≠ "" ∧
    ([] : List String).contains (normalize_entity "acme") = false ∧
    ((calculate_confidence_boost
        { Label := "x", Confidence := 0.5, TargetPath := "Sorted/A/f.txt", Why := "", Method := "" }
        { Label := "acme", PreviousTargetPath := "Sorted/B/f.txt" }
        []).boost_applied = 0 ∧
     (calculate_confidence_boost
        { Label := "x", Confidence := 0.5, TargetPath := "Sorted/A/f.txt", Why := "", Method := "" }
        { Label := "acme", PreviousTargetPath := "Sorted/B/f.txt" }
        []).boosted_confidence = min 0.5 CONFIDENCE_CAP) :=
  ⟨by decide, by decide, by decide, by decide, by decide,
   c4_conflict_boost_suppression
     { Label := "x", Confidence := 0.5, TargetPath := "Sorted/A/f.txt", Why := "", Method := "" }
     { Label := "acme", PreviousTargetPath := "Sorted/B/f.txt" }
     [] (by decide) (by decide) (by decide) (by decide) (by decide)⟩

/-- The boost computed by `calculate_confidence_boost` is never negative
(each branch adds 0, 0.05, 0.05 and/or 0.03). -/
theorem boost_applied_nonneg (n : RoutedNew) (o : Row) (e : List String) :
    0 ≤ (calculate_confidence_boost n o e).boost_applied := by
  simp only [calculate_confidence_boost]
  split_ifs <;> norm_num

/-- The boosted confidence is the new confidence plus the boost, capped. -/
theorem boosted_confidence_eq (n : RoutedNew) (o : Row) (e : List String) :
    (calculate_confidence_boost n o e).boosted_confidence
      = min (n.Confidence + (calculate_confidence_boost n o e).boost_applied) CONFIDENCE_CAP := rfl

/-- C5: residual monotonicity under boosting. If the pass-N confidence
recorded in the old row (as parsed by `safe_float`, and below the 0.99 cap
as every recorded confidence is) is at most the new pre-boost confidence,
and the prefix and entity continuity conditions hold (same nonempty target
prefix; the previous label's entity signal recurs among the new entities),
then the boosted confidence is at least the pass-N confidence. -/
theorem c5_boosting_monotone (n : RoutedNew) (o : Row) (e : List String)
    (hcap : safe_float (pyOr o.PreviousConfidence o.Confidence) 0 ≤ CONFIDENCE_CAP)
    (hmono : safe_float (pyOr o.PreviousConfidence o.Confidence) 0 ≤ n.Confidence)
    (hpfx : extract_pfx n.TargetPath = extract_pfx o.PreviousTargetPath)
    (hpfxne : extract_pfx n.TargetPath ≠ "")
    (hlabel : o.Label ≠ "")
    (hent : e.contains (normalize_entity o.Label) = true) :
    safe_float (pyOr o.PreviousConfidence o.Confidence) 0
      ≤ (calculate_confidence_boost n o e).boosted_confidence := by
  rw [boosted_confidence_eq]
  exact le_min
    (le_trans hmono (le_add_of_nonneg_right (boost_applied_nonneg n o e)))
    hcap

/-- C5, witness: continuity on prefix `A` and entity "acme", previous
confidence unrecorded (0), new confidence 0.5. -/
theorem c5_boosting_monotone_witness :
    safe_float (pyOr "" "") 0 ≤ CONFIDENCE_CAP ∧
    safe_float (pyOr "" "") 0 ≤ (0.5 : ℚ) ∧
    extract_pfx "Sorted/A/g.txt" = extract_pfx "Sorted/A/f.txt" ∧
    extract_pfx "Sorted/A/g.txt" ≠ "" ∧
    ("acme" : String) ≠ "" ∧
    ["acme"].contains (normalize_entity "acme") = true ∧
    safe_float (pyOr "" "") 0
      ≤ (calculate_confidence_boost
          { Label := "x", Confidence := 0.5, TargetPath := "Sorted/A/g.txt", Why := "", Method := "" }
          { Label := "acme", PreviousTargetPath := "Sorted/A/f.txt" }
          ["acme"]).boosted_confidence :=
  ⟨by rw [show safe_float (pyOr "" "") 0 = 0 from rfl]; norm_num [CONFIDENCE_CAP],
   by rw [show safe_float (pyOr "" "") 0 = 0 from rfl]; norm_num,
   by decide, by decide, by decide, by decide,
   c5_boosting_monotone
     { Label := "x", Confidence := 0.5, TargetPath := "Sorted/A/g.txt", Why := "", Method := "" }
     { Label := "acme", PreviousTargetPath := "Sorted/A/f.txt" }
     ["acme"]
     (by rw [show safe_float (pyOr "" "") 0 = 0 from rfl]; norm_num [CONFIDENCE_CAP])
     (by rw [show safe_float (pyOr "" "") 0 = 0 from rfl]; norm_num)
     (by decide) (by decide) (by decide) (by decide)⟩

/-- C7 (counterexample): on pass 2, the signal ("finance", 0.45, "keyword")
for file `/s/a.pdf` is not residual, yet its confidence is returned
unchanged: the ×1.1 boost is not applied because 0.45 < MED_LOW, so the
returned confidence differs from min(0.45 × 1.1, 0.95). -/
theorem c7_low_confidence_not_boosted :
    determine_residual "finance" 0.45 "keyword" "/s/a.pdf" = (false, "") ∧
    refinement_iteration_adjust 2 false
        { label := "finance", confidence := 0.45, method := "keyword", why := "w" }
      = { label := "finance", confidence := 0.45, method := "keyword", why := "w" } ∧
    (0.45 : ℚ) ≠ min (0.45 * 1.1) 0.95 := by
  refine ⟨?_, ?_, ?_⟩
  · have hamb : (AMBIGUOUS_PATTERNS.any fun pat =>
        listInfix pat.data (pyLower (pyName "/s/a.pdf")).data) = false := by decide
    have hq1 : ("finance" : String) ≠ "" := by decide
    have hq2 : pyLower "finance" = "finance" := by decide
    have hq3 : ("finance" : String) ≠ "misc" := by decide
    have hq4 : ("finance" : String) ≠ "dated_files" := by decide
    have hq5 : ("finance" : String) ≠ "empty_files" := by decide
    have hq6 : ("keyword" : String) ≠ "size" := by decide
    have hq7 : ("keyword" : String) ≠ "date_pattern" := by decide
    have hq8 : ("finance" : String) ≠ "uncategorized" := by decide
    have hq9 : ("finance" : String) ≠ "unknown" := by decide
    norm_num [determine_residual, LOW, MED_LOW, MED, MED_HIGH, hamb, hq1, hq2, hq3, hq4,
      hq5, hq6, hq7, hq8, hq9]
  · norm_num [refinement_iteration_adjust, MED_LOW]
  · norm_num

/-- C7 (amended): on a pass ≥ 2, a non-residual result whose confidence is
at least MED_LOW (0.50) — and only such a result — is returned with
confidence min(confidence × 1.1, 0.95) and the iteration annotation
appended to the explanation. -/
theorem c7_amended_iteration_boost (refinement_iteration : Nat) (is_residual : Bool)
    (best : Signal)
    (h1 : refinement_iteration > 1) (h2 : is_residual = false)
    (h3 : best.confidence ≥ MED_LOW) :
    refinement_iteration_adjust refinement_iteration is_residual best =
      { label := best.label
        confidence := min (best.confidence * 1.1) 0.95
        method := best.method
        why := best.why ++ " (iteration " ++ natToStr refinement_iteration ++ ")" } := by
  simp [refinement_iteration_adjust, h1, h2, h3]

/-- C7 amended, witness at pass 2, signal ("documents", 0.85, "extension"). -/
theorem c7_amended_iteration_boost_witness :
    2 > 1 ∧ (false = false) ∧
    ({ label := "documents", confidence := 0.85, method := "extension", why := "w" } : Signal).confidence ≥ MED_LOW ∧
    refinement_iteration_adjust 2 false
        { label := "documents", confidence := 0.85, method := "extension", why := "w" }
      = { label := "documents", confidence := min (0.85 * 1.1) 0.95,
          method := "extension", why := "w (iteration 2)" } :=
  ⟨by norm_num, rfl, by norm_num [MED_LOW],
   by
    have h := c7_amended_iteration_boost 2 false
      { label := "documents", confidence := 0.85, method := "extension", why := "w" }
      (by norm_num) rfl (by norm_num [MED_LOW])
    simpa using h⟩

/-- C10 (counterexample): the path ".." has exactly one component, but
`extract_prefix` returns "" rather than that component — the scan skips
"." / ".." / colon-terminated parts. -/
theorem c10_dotdot_not_returned :
    pySegs ".." = [".."] ∧ extract_pfx ".." = "" ∧ ("" : String) ≠ ".." := by
  decide

theorem pySegs_empty : pySegs "" = [] := by decide

/-- C10 (amended): when the path's first (non-root) component is a plain
name — not "." or ".." and not colon-terminated — `extract_prefix` returns
the second component if the path has at least two components (the first
being treated as the destination root), returns the sole component of a
one-component path, and returns "" for the empty string. -/
theorem c10_amended_second_component (p a b : String) (rest : List String) :
    (pySegs p = a :: b :: rest → isRootLikePart a = false → extract_pfx p = b) ∧
    (pySegs p = [a] → isRootLikePart a = false → extract_pfx p = a) ∧
    (p = "" → extract_pfx p = "") := by
  have hroot : isRootLikePart "/" = true := by decide
  refine ⟨?_, ?_, ?_⟩
  · intro hseg ha
    have hp : p ≠ "" := by
      intro h
      rw [h, pySegs_empty] at hseg
      exact List.noConfusion hseg
    rw [extract_pfx, if_neg hp]
    rw [pyParts]
    cases hab : pyIsAbs p <;>
      simp [hseg, findPfxLoop, ha, hroot]
  · intro hseg ha
    have hp : p ≠ "" := by
      intro h
      rw [h, pySegs_empty] at hseg
      exact List.noConfusion hseg
    rw [extract_pfx, if_neg hp]
    rw [pyParts]
    cases hab : pyIsAbs p <;>
      simp [hseg, findPfxLoop, ha, hroot]
  · intro hp
    rw [hp]
    rfl

/-- C10 amended, witness: a two-component docstring example, a
one-component path, and the empty path. -/
theorem c10_amended_second_component_witness :
    (pySegs "/dest/documents/2024/file.txt" = "dest" :: "documents" :: ["2024", "file.txt"] ∧
     isRootLikePart "dest" = false ∧
     extract_pfx "/dest/documents/2024/file.txt" = "documents") ∧
    (pySegs "photos" = ["photos"] ∧ isRootLikePart "photos" = false ∧
     extract_pfx "photos" = "photos") ∧
    extract_pfx "" = "" :=
  ⟨⟨by decide, by decide,
    (c10_amended_second_component "/dest/documents/2024/file.txt" "dest" "documents"
      ["2024", "file.txt"]).1 (by decide) (by decide)⟩,
   ⟨by decide, by decide,
    (c10_amended_second_component "photos" "photos" "" []).2.1 (by decide) (by decide)⟩,
   (c10_amended_second_component "" "" "" []).2.2 rfl⟩


/-- Insertion into the stable descending sort never yields the empty
list. -/
theorem insertSigDesc_ne_nil (p : ℚ) (x : Signal) :
    ∀ l : List Signal, insertSigDesc p x l ≠ [] := by
  intro l
  cases l with
  | nil => simp [insertSigDesc]
  | cons y ys =>
    simp only [insertSigDesc]
    split <;> simp

/-- The stable descending sort of a nonempty signal list is nonempty. -/
theorem sortSignalsDesc_eq_nil (p : ℚ) :
    ∀ l : List Signal, sortSignalsDesc p l = [] → l = [] := by
  intro l
  cases l with
  | nil => intro _; rfl
  | cons x xs =>
    intro h
    simp only [sortSignalsDesc, List.foldr_cons] at h
    exact absurd h (insertSigDesc_ne_nil p x _)

/-- A list containing two distinct elements has more than one element
after deduplication. -/
theorem one_lt_dedup_length {a b : String} {l : List String}
    (ha : a ∈ l) (hb : b ∈ l) (hab : a ≠ b) : 1 < l.dedup.length := by
  have ha' : a ∈ l.dedup := List.mem_dedup.mpr ha
  have hb' : b ∈ l.dedup := List.mem_dedup.mpr hb
  rcases h : l.dedup with _ | ⟨x, _ | ⟨y, rest⟩⟩
  · rw [h] at ha'
    exact absurd ha' (List.not_mem_nil a)
  · rw [h] at ha' hb'
    have hax : a = x := by simpa using ha'
    have hbx : b = x := by simpa using hb'
    exact absurd (hax.trans hbx.symm) hab
  · simp only [List.length_cons]
    omega

/-- C8 (amended): when two signals with distinct labels both reach
MED_HIGH, `pick_label` takes the penalty branch: the chosen (sort-first)
signal is returned with confidence max(confidence − 0.15, VERY_LOW) — the
0.15 penalty floored at 0.30 — and the ambiguity note appended. -/
theorem c8_amended_penalty_floored (signals : List Signal) (s1 s2 : Signal)
    (h1 : s1 ∈ signals) (h2 : s2 ∈ signals) (hlab : s1.label ≠ s2.label)
    (hc1 : s1.confidence ≥ MED_HIGH) (hc2 : s2.confidence ≥ MED_HIGH) :
    ∃ best rest,
      sortSignalsDesc 0.15 (strong_signals_of signals) = best :: rest ∧
      pick_label signals =
        { label := best.label
          confidence := max (best.confidence - 0.15) VERY_LOW
          method := best.method
          why := best.why ++ " (multiple classifications detected)" } := by
  have hnonempty : signals.isEmpty = false := by
    cases signals with
    | nil => cases h1
    | cons a l => rfl
  have hvl1 : (decide (s1.confidence ≥ VERY_LOW)) = true := by
    rw [decide_eq_true_iff]
    have hle : (VERY_LOW : ℚ) ≤ MED_HIGH := by norm_num [VERY_LOW, MED_HIGH]
    exact le_trans hle hc1
  have hvl2 : (decide (s2.confidence ≥ VERY_LOW)) = true := by
    rw [decide_eq_true_iff]
    have hle : (VERY_LOW : ℚ) ≤ MED_HIGH := by norm_num [VERY_LOW, MED_HIGH]
    exact le_trans hle hc2
  have hs1 : s1 ∈ signals.filter (fun s => decide (s.confidence ≥ VERY_LOW)) :=
    List.mem_filter.mpr ⟨h1, hvl1⟩
  have hs2 : s2 ∈ signals.filter (fun s => decide (s.confidence ≥ VERY_LOW)) :=
    List.mem_filter.mpr ⟨h2, hvl2⟩
  have hstrong_eq : strong_signals_of signals
      = signals.filter (fun s => decide (s.confidence ≥ VERY_LOW)) := by
    rw [strong_signals_of]
    have hne : (signals.filter (fun s => decide (s.confidence ≥ VERY_LOW))).isEmpty = false := by
      cases hmem : signals.filter (fun s => decide (s.confidence ≥ VERY_LOW)) with
      | nil => rw [hmem] at hs1; cases hs1
      | cons a l => rfl
    simp [hne]
  have hs1' : s1 ∈ strong_signals_of signals := by rw [hstrong_eq]; exact hs1
  have hs2' : s2 ∈ strong_signals_of signals := by rw [hstrong_eq]; exact hs2
  have hf1 : s1 ∈ (strong_signals_of signals).filter
      (fun s => decide (s.confidence ≥ MED_HIGH)) :=
    List.mem_filter.mpr ⟨hs1', by rw [decide_eq_true_iff]; exact hc1⟩
  have hf2 : s2 ∈ (strong_signals_of signals).filter
      (fun s => decide (s.confidence ≥ MED_HIGH)) :=
    List.mem_filter.mpr ⟨hs2', by rw [decide_eq_true_iff]; exact hc2⟩
  have hm1 := List.mem_map_of_mem Signal.label hf1
  have hm2 := List.mem_map_of_mem Signal.label hf2
  have hlen : 1 < (((strong_signals_of signals).filter
      (fun s => decide (s.confidence ≥ MED_HIGH))).map Signal.label).dedup.length :=
    one_lt_dedup_length hm1 hm2 hlab
  have hsne : strong_signals_of signals ≠ [] := by
    intro h
    rw [h] at hs1'
    cases hs1'
  obtain ⟨best, rest, hbr⟩ : ∃ best rest,
      sortSignalsDesc 0.15 (strong_signals_of signals) = best :: rest := by
    cases hs : sortSignalsDesc 0.15 (strong_signals_of signals) with
    | nil => exact absurd (sortSignalsDesc_eq_nil _ _ hs) hsne
    | cons b r => exact ⟨b, r, rfl⟩
  refine ⟨best, rest, hbr, ?_⟩
  have h015 : (0 : ℚ) < 0.15 := by norm_num
  simp only [pick_label, hnonempty, Bool.false_eq_true, if_false]
  rw [if_pos hlen, hbr]
  simp [h015]

/-- C8 (counterexample): with two distinct-label "size" signals at 0.75 and
an "extension" signal at 0.40, the extension signal wins the re-ranking,
and the penalty floors at VERY_LOW: the returned confidence is 0.30, a
reduction of 0.10 rather than the fixed 0.15 (0.40 − 0.15 = 0.25 ≠ 0.30).
The ambiguity note is still appended. -/
theorem c8_penalty_not_fixed :
    pick_label
        [{ label := "a", confidence := 0.75, method := "size", why := "w1" },
         { label := "b", confidence := 0.75, method := "size", why := "w2" },
         { label := "c", confidence := 0.40, method := "extension", why := "w3" }]
      = { label := "c", confidence := 0.30, method := "extension",
          why := "w3 (multiple classifications detected)" } ∧
    (0.40 : ℚ) - 0.15 ≠ (0.30 : ℚ) := by
  constructor
  · have hd : 1 < ((["a", "b"] : List String)).dedup.length := by decide
    have hm1 : method_priority "size" = 0.3 := rfl
    have hm2 : method_priority "extension" = 1.0 := rfl
    norm_num [pick_label, strong_signals_of, VERY_LOW, MED_HIGH]
    rw [if_pos hd]
    norm_num [sortSignalsDesc, insertSigDesc, signal_score, keyGTb, hm1, hm2]
    decide
  · norm_num

/-- C8 amended, witness: the same three-signal list, exercising the
amended theorem at signals s1 = ("a", 0.75, size), s2 = ("b", 0.75, size). -/
theorem c8_amended_penalty_floored_witness :
    (∃ best rest,
      sortSignalsDesc 0.15 (strong_signals_of
        [{ label := "a", confidence := 0.75, method := "size", why := "w1" },
         { label := "b", confidence := 0.75, method := "size", why := "w2" },
         { label := "c", confidence := 0.40, method := "extension", why := "w3" }]) = best :: rest ∧
      pick_label
        [{ label := "a", confidence := 0.75, method := "size", why := "w1" },
         { label := "b", confidence := 0.75, method := "size", why := "w2" },
         { label := "c", confidence := 0.40, method := "extension", why := "w3" }]
        = { label := best.label
            confidence := max (best.confidence - 0.15) VERY_LOW
            method := best.method
            why := best.why ++ " (multiple classifications detected)" }) :=
  c8_amended_penalty_floored _
    { label := "a", confidence := 0.75, method := "size", why := "w1" }
    { label := "b", confidence := 0.75, method := "size", why := "w2" }
    (by simp) (by simp) (by decide) (by norm_num [MED_HIGH]) (by norm_num [MED_HIGH])


/-- A keyword that matches neither the filename nor the stem leaves the
keyword loop state unchanged. -/
theorem kwStep_preserved (fl sl label : String) (c : ℚ) (st : Option (String × String) × ℚ)
    (kw : String) (h1 : reWordSearch kw fl = false) (h2 : reWordSearch kw sl = false) :
    kwStep fl sl label c st kw = st := by
  simp [kwStep, h1, h2]

/-- A keyword list with no match leaves the keyword loop state unchanged. -/
theorem kwInnerFold_preserved (fl sl label : String) (c : ℚ) :
    ∀ kws : List String,
      (∀ kw ∈ kws, reWordSearch kw fl = false ∧ reWordSearch kw sl = false) →
      ∀ st, kws.foldl (kwStep fl sl label c) st = st := by
  intro kws
  induction kws with
  | nil => intro _ st; rfl
  | cons kw rest ih =>
    intro h st
    have hkw := h kw (List.mem_cons_self kw rest)
    rw [List.foldl_cons, kwStep_preserved fl sl label c st kw hkw.1 hkw.2]
    exact ih (fun k hk => h k (List.mem_cons_of_mem kw hk)) st

/-- A pattern table with no matching keyword leaves the keyword loop state
unchanged. -/
theorem kwFold_preserved (fl sl : String) :
    ∀ entries : List (String × List String × ℚ),
      (∀ entry ∈ entries, ∀ kw ∈ entry.2.1,
        reWordSearch kw fl = false ∧ reWordSearch kw sl = false) →
      ∀ st, kwFold fl sl entries st = st := by
  intro entries
  induction entries with
  | nil => intro _ st; rfl
  | cons e rest ih =>
    intro h st
    have hstep : kwFold fl sl (e :: rest) st
        = kwFold fl sl rest (e.2.1.foldl (kwStep fl sl e.1 e.2.2) st) := rfl
    rw [hstep, kwInnerFold_preserved fl sl e.1 e.2.2 e.2.1 (h e (List.mem_cons_self e rest)) st]
    exact ih (fun x hx => h x (List.mem_cons_of_mem e hx)) st

/-- C6: the spec's invoice scenario diverges from the code. For the file
`invoice_2024.pdf` in `Incoming/ClientA/` under scan root `/scan`: the
keyword detector yields NO finance/invoice hit (Python treats `_` as a word
character, so `\\binvoice\\b` cannot match inside `invoice_2024`), the year
extractor finds NO year for the same reason (`\\b2024\\b` fails after `_`),
and routing the extension detector's classification (documents@0.85) gives
action Move and entity ClientA but semantic prefix
`Finance/Invoices/ClientA`, missing the `/2024` segment the claim expects. -/
theorem c6_invoice_scenario_divergence :
    extensionDetectorScore "/scan/Incoming/ClientA/invoice_2024.pdf"
      = some { label := "documents", confidence := 0.85, method := "extension",
               why := "matched .pdf extension" } ∧
    keywordDetectorScore "/scan/Incoming/ClientA/invoice_2024.pdf" = none ∧
    (∀ current_year,
      extract_year current_year "/scan/Incoming/ClientA/invoice_2024.pdf" = none) ∧
    (∀ current_year,
      route_file "documents" 0.85 "/scan/Incoming/ClientA/invoice_2024.pdf"
          (some "/scan") current_year
        = { source_path := "/scan/Incoming/ClientA/invoice_2024.pdf"
            domain := "Finance"
            kind := "Invoices"
            entity := some "ClientA"
            year := none
            semantic_pfx := "Finance/Invoices/ClientA"
            confidence := 0.85
            action := "Move"
            is_residual := false
            why := "Domain=Finance, Kind=Invoices, Entity=ClientA" }) := by
  have hyear : ∀ current_year,
      extract_year current_year "/scan/Incoming/ClientA/invoice_2024.pdf" = none := by
    intro current_year
    have h1 : yearFindAll none (pyStem "/scan/Incoming/ClientA/invoice_2024.pdf").data = [] := by
      decide
    have h2 : yearFindAll none
        (pyParentStr "/scan/Incoming/ClientA/invoice_2024.pdf").data = [] := by decide
    simp [extract_year, yearPick, h1, h2]
  refine ⟨?_, ?_, hyear, ?_⟩
  · have hz1 : strEndsWithStr (pyLower (pyName "/scan/Incoming/ClientA/invoice_2024.pdf"))
        ".tar.gz" = false := by decide
    have hz2 : strEndsWithStr (pyLower (pyName "/scan/Incoming/ClientA/invoice_2024.pdf"))
        ".tar.bz2" = false := by decide
    have hz3 : strEndsWithStr (pyLower (pyName "/scan/Incoming/ClientA/invoice_2024.pdf"))
        ".tar.xz" = false := by decide
    have hne : pyLower (pySuffix "/scan/Incoming/ClientA/invoice_2024.pdf") ≠ "" := by decide
    have hfind : extension_map.find?
        (fun e => e.2.1.contains
          (pyLower (pySuffix "/scan/Incoming/ClientA/invoice_2024.pdf")))
        = some ("documents",
            [".pdf", ".doc", ".docx", ".txt", ".rtf", ".odt", ".tex", ".md", ".rst"],
            0.85) := rfl
    have hext : pyLower (pySuffix "/scan/Incoming/ClientA/invoice_2024.pdf") = ".pdf" := by
      decide
    simp only [extensionDetectorScore, hz1, hz2, hz3, Bool.or_self, Bool.false_or,
      Bool.false_eq_true, if_false, hfind]
    rw [if_neg hne]
    norm_num [adjust_confidence, hext]
    decide
  · simp only [keywordDetectorScore]
    rw [kwFold_preserved _ _ keyword_patterns (by decide) _]
  · intro current_year
    have htok : extract_tokens "/scan/Incoming/ClientA/invoice_2024.pdf" (some "/scan")
        = (["invoice", "2024"], ["incoming", "clienta"]) := by decide
    have hdom : choose_domain "documents" ["invoice", "2024"] ["incoming", "clienta"]
        = "Finance" := by
      have hd1 : DOMAIN_HINTS "invoice" = some ("Finance", 0.8) := rfl
      have hd2 : DOMAIN_HINTS "2024" = none := rfl
      have hd3 : DOMAIN_HINTS "incoming" = none := rfl
      have hd4 : DOMAIN_HINTS "clienta" = none := rfl
      have hs : ∀ pre ∈ LABEL_TO_DOMAIN, strStartsWith "documents" pre.1 = false := by decide
      simp [choose_domain, LABEL_TO_DOMAIN, DOMAINS, bumpScore, argmaxFirst,
        hd1, hd2, hd3, hd4, hs]
      norm_num
    have hsuf : pySuffix "/scan/Incoming/ClientA/invoice_2024.pdf" = ".pdf" := by decide
    have hkind : choose_kind "documents" ["invoice", "2024"] ".pdf" = "Invoices" := by
      have hk1 : KIND_HINTS "invoice" = some ("Invoices", 0.9) := rfl
      have hk2 : KIND_HINTS "2024" = none := rfl
      have hl : LABEL_TO_KIND "documents" = none := rfl
      have he : pyLower ".pdf" = ".pdf" := by decide
      simp [choose_kind, KINDS, bumpScore, argmaxFirst, hk1, hk2, hl, he]
      norm_num
    have hent : extract_entity "/scan/Incoming/ClientA/invoice_2024.pdf"
        = (some "ClientA", 19/25) := by
      have hp : pyParentName "/scan/Incoming/ClientA/invoice_2024.pdf" = "ClientA" := by decide
      have hstem : pyStem "/scan/Incoming/ClientA/invoice_2024.pdf" = "invoice_2024" := by
        decide
      have hns1 : normalize_segment "ClientA" = "ClientA" := by decide
      have hns2 : normalize_segment "invoice_2024" = "invoice 2024" := by decide
      have hj1 : is_junk "ClientA" = false := by decide
      have hj2 : is_junk "invoice 2024" = false := by decide
      have hc1 : hasCamel "ClientA".data = true := by decide
      have hc2 : hasCamel "invoice 2024".data = false := by decide
      have ha1 : addressPatSearch none "ClientA".data = false := by decide
      have ha2 : addressPatSearch none "invoice 2024".data = false := by decide
      have hf1 : firstIsUpper "ClientA" = true := by decide
      have hf2 : firstIsUpper "invoice 2024" = false := by decide
      have hcan : canonicalize_entity "ClientA" = "ClientA" := by decide
      have hq1 : ("ClientA" : String) ≠ "" := by decide
      have hq2 : ("invoice 2024" : String) ≠ "" := by decide
      have hq3 : ("filename" : String) ≠ "parent" := by decide
      simp only [extract_entity, hp, hstem, ne_eq]
      norm_num [score_entity_candidate, hns1, hns2, hj1, hj2, hc1, hc2, ha1, ha2, hf1, hf2,
        ENTITY_MIN_SCORE, sortByScoreDesc, insertScoreDesc, hcan, List.filterMap_cons,
        hq1, hq2, hq3]
    have hpfx : build_pfx "Finance" "Invoices" (some "ClientA") none
        = "Finance/Invoices/ClientA" := by decide
    have hwhy : build_why "Finance" "Invoices" (some "ClientA") none
        = "Domain=Finance, Kind=Invoices, Entity=ClientA" := by decide
    have hact : determine_action 0.85 = ("Move", false) := by norm_num [determine_action]
    simp only [route_file, htok, hdom, hsuf, hkind, hent, hyear current_year, hact,
      hpfx, hwhy]
    norm_num
    exact ⟨hpfx, hwhy⟩


/-- In the path-to-row dict built from rows with pairwise-distinct source
paths, looking up a member row's source path returns that row (raw
association-list form). -/
theorem findRow_self : ∀ rs : List Row, (rs.map Row.SourcePath).Nodup →
    ∀ r ∈ rs, ((rs.map fun r => (r.SourcePath, r)).reverse.find?
      (fun pr => pr.1 == r.SourcePath)) = some (r.SourcePath, r) := by
  intro rs
  induction rs with
  | nil => intro _ r hr; cases hr
  | cons x xs ih =>
    intro hnd r hr
    have hnd' : (xs.map Row.SourcePath).Nodup := (List.nodup_cons.mp hnd).2
    have hx : x.SourcePath ∉ xs.map Row.SourcePath := (List.nodup_cons.mp hnd).1
    rw [List.map_cons, List.reverse_cons, List.find?_append]
    rcases List.mem_cons.mp hr with hrx | hrxs
    · subst hrx
      have hnone : (xs.map fun r => (r.SourcePath, r)).reverse.find?
          (fun pr => pr.1 == r.SourcePath) = none := by
        rw [List.find?_eq_none]
        intro pr hpr
        rw [List.mem_reverse, List.mem_map] at hpr
        obtain ⟨r', hr', rfl⟩ := hpr
        simp only [beq_eq_false_iff_ne, ne_eq, beq_iff_eq]
        intro hsp
        exact hx (hsp ▸ List.mem_map_of_mem Row.SourcePath hr')
      rw [hnone]
      simp [List.find?]
    · rw [ih hnd' r hrxs]
      rfl

/-- Looking up a member row's source path in the dict yields that row. -/
theorem lookupRow_self (rs : List Row) (hnd : (rs.map Row.SourcePath).Nodup)
    (r : Row) (hr : r ∈ rs) :
    lookupRow (rs.map fun r => (r.SourcePath, r)) r.SourcePath = some r := by
  rw [lookupRow, findRow_self rs hnd r hr]
  rfl

/-- When every re-analysis result's lookup succeeds with its own row, the
refinement loop refines each residual row exactly once, in order. -/
theorem refineLoop_eq_map (it : Nat) (ent : String → List String)
    (analyze : String → FileResult) (assoc : List (String × Row)) :
    ∀ resids : List Row,
      (∀ r ∈ resids, lookupRow assoc (analyze r.SourcePath).path = some r) →
      ((resids.map fun r => analyze r.SourcePath).filterMap fun res =>
        match lookupRow assoc res.path with
        | some old_row => some (apply_residual_refinement old_row res it ent)
        | none => none)
      = resids.map fun r => apply_residual_refinement r (analyze r.SourcePath) it ent := by
  intro resids
  induction resids with
  | nil => intro _; rfl
  | cons r rest ih =>
    intro h
    rw [List.map_cons, List.filterMap_cons, h r (List.mem_cons_self r rest)]
    rw [ih (fun x hx => h x (List.mem_cons_of_mem r hx))]
    rfl

/-- C3: non-residual pass-through and one-row-per-path preservation.
Under the pipeline's operating assumptions — one analysis result per
residual path with `result.path` equal to the input path, and pairwise
distinct source paths in the mapping (hypotheses `hpath`, `hnodup`) — a
refinement call (i) rebuilds the mapping as the untouched non-residual
rows followed by exactly one refined row per residual row, (ii) keeps
every non-residual row field-for-field, (iii) keeps the multiset of
source paths exactly (no row dropped, none duplicated), which stay
pairwise distinct, and (iv) each refined row carries its residual row's
source path. -/
theorem c3_refinement_pass_through (rows : List Row) (analyze : String → FileResult)
    (it : Nat) (ent : String → List String)
    (hpath : ∀ p, (analyze p).path = p)
    (hnodup : (rows.map Row.SourcePath).Nodup) :
    refineRun rows analyze it ent
      = rows.filter (fun r => !pyIsTrueStr r.IsResidual)
        ++ (rows.filter (fun r => pyIsTrueStr r.IsResidual)).map
            (fun r => apply_residual_refinement r (analyze r.SourcePath) it ent) ∧
    (∀ r ∈ rows, pyIsTrueStr r.IsResidual = false → r ∈ refineRun rows analyze it ent) ∧
    ((refineRun rows analyze it ent).map Row.SourcePath).Perm (rows.map Row.SourcePath) ∧
    ((refineRun rows analyze it ent).map Row.SourcePath).Nodup ∧
    (∀ r ∈ rows.filter (fun r => pyIsTrueStr r.IsResidual),
      (apply_residual_refinement r (analyze r.SourcePath) it ent).SourcePath
        = r.SourcePath) := by
  have hsubnd : ((rows.filter (fun r => pyIsTrueStr r.IsResidual)).map Row.SourcePath).Nodup :=
    ((List.filter_sublist rows).map Row.SourcePath).nodup hnodup
  have hlook : ∀ r ∈ rows.filter (fun r => pyIsTrueStr r.IsResidual),
      lookupRow ((rows.filter (fun r => pyIsTrueStr r.IsResidual)).map
        fun r => (r.SourcePath, r)) (analyze r.SourcePath).path = some r := by
    intro r hr
    rw [hpath r.SourcePath]
    exact lookupRow_self _ hsubnd r hr
  have heq : refineRun rows analyze it ent
      = rows.filter (fun r => !pyIsTrueStr r.IsResidual)
        ++ (rows.filter (fun r => pyIsTrueStr r.IsResidual)).map
            (fun r => apply_residual_refinement r (analyze r.SourcePath) it ent) := by
    rw [refineRun]
    rw [refineLoop_eq_map it ent analyze _ _ hlook]
  have hsp : ∀ r ∈ rows.filter (fun r => pyIsTrueStr r.IsResidual),
      (apply_residual_refinement r (analyze r.SourcePath) it ent).SourcePath
        = r.SourcePath := by
    intro r _
    show (analyze r.SourcePath).path = r.SourcePath
    exact hpath r.SourcePath
  have hmapsp : ((rows.filter (fun r => pyIsTrueStr r.IsResidual)).map
        (fun r => apply_residual_refinement r (analyze r.SourcePath) it ent)).map Row.SourcePath
      = (rows.filter (fun r => pyIsTrueStr r.IsResidual)).map Row.SourcePath := by
    rw [List.map_map]
    exact List.map_congr_left hsp
  have hperm : ((refineRun rows analyze it ent).map Row.SourcePath).Perm
      (rows.map Row.SourcePath) := by
    rw [heq, List.map_append, hmapsp, ← List.map_append]
    refine List.Perm.map Row.SourcePath ?_
    have h0 := List.filter_append_perm (fun r => !pyIsTrueStr r.IsResidual) rows
    have h1 : rows.filter (fun r => !(!pyIsTrueStr r.IsResidual))
        = rows.filter (fun r => pyIsTrueStr r.IsResidual) := by
      simp only [Bool.not_not]
    rw [h1] at h0
    exact h0
  refine ⟨heq, ?_, hperm, hperm.nodup_iff.mpr hnodup, hsp⟩
  intro r hr hres
  rw [heq]
  refine List.mem_append_left _ ?_
  exact List.mem_filter.mpr ⟨hr, by rw [hres]; rfl⟩

/-- C3, witness: a two-row mapping (one residual, one not) with distinct
source paths, re-analysis keeping each path. -/
theorem c3_refinement_pass_through_witness :
    (∀ p, ((fun p => FileResult.mk p "" 0 "none" "" true "") p).path = p) ∧
    (([({ SourcePath := "/s/a", IsResidual := "True" } : Row),
       ({ SourcePath := "/s/b", IsResidual := "False" } : Row)].map Row.SourcePath).Nodup) ∧
    ((refineRun
        [({ SourcePath := "/s/a", IsResidual := "True" } : Row),
         ({ SourcePath := "/s/b", IsResidual := "False" } : Row)]
        (fun p => FileResult.mk p "" 0 "none" "" true "") 2
        (fun _ => [])).map Row.SourcePath).Perm
      ([({ SourcePath := "/s/a", IsResidual := "True" } : Row),
        ({ SourcePath := "/s/b", IsResidual := "False" } : Row)].map Row.SourcePath) :=
  ⟨fun _ => rfl, by decide,
   (c3_refinement_pass_through
     [({ SourcePath := "/s/a", IsResidual := "True" } : Row),
      ({ SourcePath := "/s/b", IsResidual := "False" } : Row)]
     (fun p => FileResult.mk p "" 0 "none" "" true "") 2 (fun _ => [])
     (fun _ => rfl) (by decide)).2.2.1⟩


/-- One collision step started from an accumulated output equals the same
step from an empty output, prepended with that output. -/
theorem collStep_out (occ : String → Nat) (out : List Row) (row : Row) :
    collStep (occ, out) row
      = ((collStep (occ, []) row).1, out ++ (collStep (occ, []) row).2) := by
  simp only [collStep]
  split_ifs <;> simp

/-- The collision fold from an accumulated output prepends that output. -/
theorem collFold_out : ∀ (l : List Row) (occ : String → Nat) (out : List Row),
    l.foldl collStep (occ, out)
      = ((l.foldl collStep (occ, [])).1, out ++ (l.foldl collStep (occ, [])).2) := by
  intro l
  induction l with
  | nil => intro occ out; simp
  | cons r rest ih =>
    intro occ out
    rw [List.foldl_cons, List.foldl_cons, collStep_out occ out r]
    rw [ih (collStep (occ, []) r).1 (out ++ (collStep (occ, []) r).2)]
    rw [ih (collStep (occ, []) r).1 (collStep (occ, []) r).2]
    simp

/-- A collision step for a row with a different (stripped) target leaves
the occurrence count of `t` unchanged. -/
theorem collStep_occ_other (occ : String → Nat) (out : List Row) (row : Row) (t : String)
    (h : pyStrip row.TargetPath ≠ t) :
    (collStep (occ, out) row).1 t = occ t := by
  simp only [collStep]
  split_ifs
  · rfl
  · exact if_neg fun hh => h hh.symm
  · exact if_neg fun hh => h hh.symm

/-- A run of rows that never strip-target to `t` leaves `t`'s occurrence
count unchanged. -/
theorem collFold_occ_other : ∀ (l : List Row) (occ : String → Nat) (out : List Row)
    (t : String), (∀ r ∈ l, pyStrip r.TargetPath ≠ t) →
    ((l.foldl collStep (occ, out)).1) t = occ t := by
  intro l
  induction l with
  | nil => intro occ out t _; rfl
  | cons r rest ih =>
    intro occ out t h
    rw [List.foldl_cons]
    have hr := h r (List.mem_cons_self r rest)
    have hrest := ih (collStep (occ, out) r).1 (collStep (occ, out) r).2 t
      (fun x hx => h x (List.mem_cons_of_mem r hx))
    rw [show ((collStep (occ, out) r).1, (collStep (occ, out) r).2) = collStep (occ, out) r
      from rfl] at hrest
    rw [hrest, collStep_occ_other occ out r t hr]

/-- Every collision step appends exactly one row, so the fold's output has
one row per input row. -/
theorem collFold_length : ∀ (l : List Row) (occ : String → Nat),
    ((l.foldl collStep (occ, [])).2).length = l.length := by
  intro l
  induction l with
  | nil => intro occ; rfl
  | cons r rest ih =>
    intro occ
    rw [List.foldl_cons, collFold_out rest (collStep (occ, []) r).1 (collStep (occ, []) r).2]
    have hone : ((collStep (occ, []) r).2).length = 1 := by
      simp only [collStep]
      split_ifs <;> rfl
    simp [hone, ih, Nat.add_comm]

/-- C9: collision determinism. In a batch where rows `r1` and `r2` are the
only rows whose stripped target path equals `t` up to `r2`'s position
(`r1` first in iteration order), collision resolution keeps `r1`'s target
untouched (CollisionIndex "0") and renames `r2`'s target to
`renameDup t 1` — stem + "__dup1" + suffix in the same directory — at the
same positions. Re-running on the same rows applies the same pure
function, hence reproduces the identical renames. -/
theorem c9_collision_determinism (xs ys zs : List Row) (r1 r2 : Row) (t : String)
    (ht : t ≠ "") (h1 : pyStrip r1.TargetPath = t) (h2 : pyStrip r2.TargetPath = t)
    (hxs : ∀ r ∈ xs, pyStrip r.TargetPath ≠ t)
    (hys : ∀ r ∈ ys, pyStrip r.TargetPath ≠ t) :
    ∃ A B C : List Row,
      resolve_collisions_in_mapping (xs ++ r1 :: (ys ++ r2 :: zs))
        = A ++ ({ r1 with CollisionIndex := "0" } : Row)
            :: (B ++ ({ r2 with
                        TargetPath := renameDup t 1
                        CollisionIndex := natToStr 1
                        OriginalTargetPath := t } : Row) :: C)
      ∧ A.length = xs.length ∧ B.length = ys.length := by
  set P1 := xs.foldl collStep ((fun _ => 0 : String → Nat), ([] : List Row)) with hP1def
  have hP1t : P1.1 t = 0 := by
    rw [hP1def]
    exact collFold_occ_other xs _ [] t hxs
  have hs1occ : (collStep P1 r1).1 t = 1 := by
    simp only [collStep, h1]
    rw [if_neg ht, hP1t]
    simp
  have hs1out : (collStep P1 r1).2 = P1.2 ++ [({ r1 with CollisionIndex := "0" } : Row)] := by
    simp only [collStep, h1]
    rw [if_neg ht, hP1t]
    simp
  set S1 := collStep P1 r1 with hS1def
  set Q := ys.foldl collStep S1 with hQdef
  have hQt : Q.1 t = 1 := by
    rw [hQdef, show S1 = (S1.1, S1.2) from rfl, collFold_occ_other ys S1.1 S1.2 t hys]
    exact hs1occ
  have hQout : Q.2 = S1.2 ++ (ys.foldl collStep (S1.1, [])).2 := by
    rw [hQdef]
    conv_lhs => rw [show S1 = (S1.1, S1.2) from rfl, collFold_out ys S1.1 S1.2]
  have hs2out : (collStep Q r2).2
      = Q.2 ++ [({ r2 with
          TargetPath := renameDup t 1
          CollisionIndex := natToStr 1
          OriginalTargetPath := t } : Row)] := by
    simp only [collStep, h2]
    rw [if_neg ht, hQt]
    simp
  refine ⟨P1.2, (ys.foldl collStep (S1.1, [])).2,
    (zs.foldl collStep ((collStep Q r2).1, [])).2, ?_,
    (by rw [hP1def]; exact collFold_length xs _),
    collFold_length ys _⟩
  have hmain : resolve_collisions_in_mapping (xs ++ r1 :: (ys ++ r2 :: zs))
      = (zs.foldl collStep (collStep Q r2)).2 := by
    simp only [resolve_collisions_in_mapping]
    rw [List.foldl_append, List.foldl_cons, ← hP1def, ← hS1def, List.foldl_append,
      List.foldl_cons, ← hQdef]
  rw [hmain]
  rw [show collStep Q r2 = ((collStep Q r2).1, (collStep Q r2).2) from rfl,
    collFold_out zs (collStep Q r2).1 (collStep Q r2).2]
  rw [show ((collStep Q r2).1, (collStep Q r2).2) = collStep Q r2 from rfl]
  rw [hs2out, hQout, hs1out]
  simp [List.append_assoc]


/-- C9, witness: the spec's concrete batch — two rows targeting
`Documents/report.pdf`; the first keeps the plain name, the second becomes
`Documents/report__dup1.pdf`. -/
theorem c9_collision_determinism_witness :
    ("Documents/report.pdf" : String) ≠ "" ∧
    pyStrip "Documents/report.pdf" = "Documents/report.pdf" ∧
    renameDup "Documents/report.pdf" 1 = "Documents/report__dup1.pdf" ∧
    (∃ A B C : List Row,
      resolve_collisions_in_mapping
          ([] ++ ({ SourcePath := "/s/a", TargetPath := "Documents/report.pdf" } : Row)
            :: ([] ++ ({ SourcePath := "/s/b", TargetPath := "Documents/report.pdf" } : Row) :: []))
        = A ++ ({ ({ SourcePath := "/s/a", TargetPath := "Documents/report.pdf" } : Row) with
                  CollisionIndex := "0" } : Row)
            :: (B ++ ({ ({ SourcePath := "/s/b", TargetPath := "Documents/report.pdf" } : Row) with
                        TargetPath := renameDup "Documents/report.pdf" 1
                        CollisionIndex := natToStr 1
                        OriginalTargetPath := "Documents/report.pdf" } : Row) :: C)
      ∧ A.length = ([] : List Row).length ∧ B.length = ([] : List Row).length) :=
  ⟨by decide, by decide, by decide,
   c9_collision_determinism [] [] []
     ({ SourcePath := "/s/a", TargetPath := "Documents/report.pdf" } : Row)
     ({ SourcePath := "/s/b", TargetPath := "Documents/report.pdf" } : Row)
     "Documents/report.pdf" (by decide) (by decide) (by decide)
     (fun r hr => absurd hr (List.not_mem_nil r))
     (fun r hr => absurd hr (List.not_mem_nil r))⟩

end Siftwise